import Mathlib

/-!
Verification of the STL analysis engine in scripts/analyze-stl.py.

The Python source is shallowly embedded: mesh coordinates (IEEE-754 floats
in the source) are modelled as rationals, real-valued radius/deviation
computations (math.sqrt) as real numbers, raw file contents as lists of
natural numbers (one per byte), and the 32-bit float fields of a binary
STL record are kept as their little-endian 32-bit bit patterns, since no
claim depends on decoding IEEE semantics.
-/

namespace StlAnalyze

/-- Point in three dimensions; source represents it as an (x, y, z) tuple. -/
structure Point3 where
  x : ℚ
  y : ℚ
  z : ℚ
deriving DecidableEq

/-- Triangle record as parsed from an STL file: stored normal plus three
vertices, mirroring the Python tuple (normal, v1, v2, v3). -/
structure Triangle where
  normal : Point3
  v1 : Point3
  v2 : Point3
  v3 : Point3
deriving DecidableEq

/-! Format detection (is_ascii_stl, analyze-stl.py lines 46-50). -/

/-- Byte values stripped by Python bytes.lstrip(): tab, LF, VT, FF, CR, space. -/
def wsBytes : List ℕ := [9, 10, 11, 12, 13, 32]

/-- Python start.lstrip(): drop leading ASCII-whitespace bytes. -/
def bstrip (l : List ℕ) : List ℕ := l.dropWhile (fun b => b ∈ wsBytes)

/-- The byte string b"solid". -/
def solidMarker : List ℕ := [115, 111, 108, 105, 100]

/-- is_ascii_stl: read the first 80 bytes, lstrip, then require a b"solid"
prefix and the absence of a null byte in the stripped prefix. -/
def isAsciiStl (file : List ℕ) : Bool :=
  let start := bstrip (file.take 80)
  solidMarker.isPrefixOf start && !(start.contains 0)

/-- STL file format chosen by analyze() (lines 177-182). -/
inductive Format where
  | text
  | binary
deriving DecidableEq

/-- analyze() parses with the ASCII reader when is_ascii_stl holds,
otherwise with the binary reader. -/
def detectFormat (file : List ℕ) : Format :=
  if isAsciiStl file then .text else .binary

/-! Face-normal classification (analyze-stl.py lines 213-223). -/

/-- The four face-normal categories of the report. -/
inductive NormalClass where
  | top
  | bottom
  | vertical
  | angled
deriving DecidableEq

/-- Classification of one triangle by its stored normal's z component only:
nz > 0.9 top, elif nz < -0.9 bottom, elif abs(nz) < 0.1 vertical, else angled. -/
def classifyNormal (nz : ℚ) : NormalClass :=
  if nz > 9/10 then .top
  else if nz < -(9/10) then .bottom
  else if |nz| < 1/10 then .vertical
  else .angled

/-- The (top, bottom, vertical, angled) counters accumulated by the loop at
lines 214-223, one increment per triangle. -/
def normalCounts : List Triangle → ℕ × ℕ × ℕ × ℕ
  | [] => (0, 0, 0, 0)
  | t :: ts =>
    let p := normalCounts ts
    match classifyNormal t.normal.z with
    | .top => (p.1 + 1, p.2.1, p.2.2.1, p.2.2.2)
    | .bottom => (p.1, p.2.1 + 1, p.2.2.1, p.2.2.2)
    | .vertical => (p.1, p.2.1, p.2.2.1 + 1, p.2.2.2)
    | .angled => (p.1, p.2.1, p.2.2.1, p.2.2.2 + 1)

/-! Reconstruction recommendation (analyze-stl.py lines 362-387). -/

/-- The three reconstruction strategies of the final report block. -/
inductive Strategy where
  | manualParametric
  | polyhedron
  | slicedCrossSection
deriving DecidableEq

/-- Recommendation logic: strategy plus the optional decimation suggestion
printed when the polyhedron branch sees more than 50000 triangles. -/
def recommend (nTris : ℕ) (flatVerticalPct curvePct : ℚ) : Strategy × Option ℚ :=
  if nTris < 500 ∧ flatVerticalPct > 80 then
    (.manualParametric, none)
  else if nTris > 1000 ∨ curvePct > 30 then
    (.polyhedron, if nTris > 50000 then some (max (1/10) (20000 / (nTris : ℚ))) else none)
  else
    (.slicedCrossSection, none)

/-! Binary STL parser (read_binary_stl, analyze-stl.py lines 24-43).
Bytes are naturals; each 32-bit float field is kept as its little-endian
bit pattern, because no claim depends on IEEE-754 decoding. -/

/-- Little-endian word value of a byte list (struct.unpack uses "<"). -/
def le32 (l : List ℕ) : ℕ := l.foldr (fun b acc => b + 256 * acc) 0

/-- Triangle record with the twelve 32-bit float fields kept as raw
little-endian words (normal.xyz, v1.xyz, v2.xyz, v3.xyz); the trailing
2-byte attribute is discarded by the source as well. -/
structure RawTri where
  normal : ℕ × ℕ × ℕ
  v1 : ℕ × ℕ × ℕ
  v2 : ℕ × ℕ × ℕ
  v3 : ℕ × ℕ × ℕ
deriving DecidableEq

/-- Word number i (0-based) of a 50-byte record. -/
def recWord (rec : List ℕ) (i : ℕ) : ℕ := le32 ((rec.drop (4 * i)).take 4)

/-- Decode one 50-byte triangle record as struct.unpack("<12fH") does,
keeping float bit patterns and dropping the attribute word. -/
def decodeRecord (rec : List ℕ) : RawTri :=
  ⟨(recWord rec 0, recWord rec 1, recWord rec 2),
   (recWord rec 3, recWord rec 4, recWord rec 5),
   (recWord rec 6, recWord rec 7, recWord rec 8),
   (recWord rec 9, recWord rec 10, recWord rec 11)⟩

/-- The for-loop of read_binary_stl: up to n iterations, each taking the
next 50 bytes; a short read (fewer than 50 bytes left) breaks the loop. -/
def parseRecords : ℕ → List ℕ → List RawTri
  | 0, _ => []
  | n + 1, bytes =>
    if bytes.length < 50 then []
    else decodeRecord (bytes.take 50) :: parseRecords n (bytes.drop 50)

/-- read_binary_stl: skip an 80-byte header, unpack a 4-byte little-endian
count, then parse records. struct.unpack("<I") raises struct.error when
f.read(4) returns fewer than 4 bytes; that uncaught exception is modelled
as the error outcome. -/
def readBinarySTL (file : List ℕ) : Except Unit (List RawTri) :=
  let rest := file.drop 80
  if rest.length < 4 then .error ()
  else .ok (parseRecords (le32 (rest.take 4)) (rest.drop 4))

/-! Top-level control flow (analyze lines 184-186 and the __main__ block,
lines 390-400), given whether the path exists and the parsed triangle
list. sys.exit(1) is reached only for a missing argument or a missing
path; analyze() prints its empty-mesh diagnostic and returns normally,
after which the interpreter exits with code 0. -/

/-- Observable outcome of a run on an existing-or-not path. -/
inductive MainResult where
  | fileNotFoundError
  | emptyMeshError
  | report
deriving DecidableEq

/-- Which diagnostic (if any) the run prints before finishing. -/
def mainOutcome (pathExists : Bool) (tris : List RawTri) : MainResult :=
  if !pathExists then .fileNotFoundError
  else if tris.isEmpty then .emptyMeshError
  else .report

/-- Process exit code of the run: 1 only on the missing-path guard; every
path through analyze(), including the empty-mesh diagnostic, returns
normally and the script exits 0. -/
def mainExitCode (pathExists : Bool) (_tris : List RawTri) : ℕ :=
  if !pathExists then 1 else 0

/-! Cross-section slice analysis (analyze_slice, analyze-stl.py lines
262-294). Coordinates are rationals; the sqrt-based radius statistics are
real numbers. -/

/-- Minimum of a list as Python min computes it; Python raises on an empty
list, which is unreachable at every call site (all are guarded by
nonemptiness), so the empty case returns the default value. -/
def pymin {α : Type} [LinearOrder α] [Inhabited α] : List α → α
  | [] => default
  | x :: xs => xs.foldl min x

/-- Maximum of a list as Python max computes it; empty case as in pymin. -/
def pymax {α : Type} [LinearOrder α] [Inhabited α] : List α → α
  | [] => default
  | x :: xs => xs.foldl max x

/-- Slab selection of analyze_slice: the (x, y) pairs of every vertex with
abs(z - target_z) < tolerance, in list order, duplicates kept. -/
def slabVerts (allVerts : List Point3) (targetZ tolerance : ℚ) : List (ℚ × ℚ) :=
  (allVerts.filter (fun v => |v.z - targetZ| < tolerance)).map (fun v => (v.x, v.y))

/-- Shape labels of the cross-section report; the source prints the oval
label as "roughly circular/oval". -/
inductive Shape where
  | circular
  | oval
  | irregular
deriving DecidableEq

/-- Result record of a successful analyze_slice call. -/
structure SliceInfo where
  nPoints : ℕ
  xRange : ℚ × ℚ
  yRange : ℚ × ℚ
  width : ℚ
  height : ℚ
  center : ℚ × ℚ
  avgRadius : ℝ
  variation : ℝ
  shape : Shape

/-- Body of analyze_slice after the size guard, translated clause by
clause: center from min/max of each coordinate, distances via math.sqrt,
avg_r and population std over len(dists), variation guarded by avg_r > 0,
then the if/elif shape ladder. -/
noncomputable def sliceInfoOf (verts : List (ℚ × ℚ)) : SliceInfo :=
  let sx := verts.map Prod.fst
  let sy := verts.map Prod.snd
  let cx := (pymin sx + pymax sx) / 2
  let cy := (pymin sy + pymax sy) / 2
  let dists : List ℝ :=
    verts.map (fun p => Real.sqrt (((p.1 : ℝ) - (cx : ℝ)) ^ 2 + ((p.2 : ℝ) - (cy : ℝ)) ^ 2))
  let avgR := dists.sum / (dists.length : ℝ)
  let stdR := Real.sqrt ((dists.map (fun d => (d - avgR) ^ 2)).sum / (dists.length : ℝ))
  let variation := if avgR > 0 then stdR / avgR else 0
  ⟨verts.length, (pymin sx, pymax sx), (pymin sy, pymax sy),
   pymax sx - pymin sx, pymax sy - pymin sy, (cx, cy), avgR, variation,
   if variation < 1/10 then .circular
   else if variation < 1/4 then .oval
   else .irregular⟩

/-- analyze_slice(target_z, tolerance): None when fewer than 10 vertices
qualify, otherwise the slice record; every call site passes the default
tolerance 0.25. -/
noncomputable def analyzeSlice (allVerts : List Point3) (targetZ tolerance : ℚ) :
    Option SliceInfo :=
  if (slabVerts allVerts targetZ tolerance).length < 10 then none
  else some (sliceInfoOf (slabVerts allVerts targetZ tolerance))

/-- Modelled from the spec (section 4.3) purely in its own words, for
comparison with sliceInfoOf: center is the midpoint of the 2-D bounding
box of the selected pairs, meanRadius the arithmetic mean of the Euclidean
distances of every point to that center, variationCoefficient the
population standard deviation of those distances divided by meanRadius
(0 when meanRadius is 0), and the label circular below 0.1, oval below
0.25, irregular otherwise. -/
noncomputable def specSliceResult (verts : List (ℚ × ℚ)) : SliceInfo :=
  let xs := verts.map Prod.fst
  let ys := verts.map Prod.snd
  let center : ℚ × ℚ := ((pymin xs + pymax xs) / 2, (pymin ys + pymax ys) / 2)
  let dists : List ℝ :=
    verts.map (fun p =>
      Real.sqrt (((p.1 : ℝ) - (center.1 : ℝ)) ^ 2 + ((p.2 : ℝ) - (center.2 : ℝ)) ^ 2))
  let meanRadius := dists.sum / (verts.length : ℝ)
  let popStd := Real.sqrt ((dists.map (fun d => (d - meanRadius) ^ 2)).sum / (verts.length : ℝ))
  let vc := if meanRadius = 0 then 0 else popStd / meanRadius
  ⟨verts.length, (pymin xs, pymax xs), (pymin ys, pymax ys),
   pymax xs - pymin xs, pymax ys - pymin ys, center, meanRadius, vc,
   if vc < 1/10 then .circular
   else if vc < 1/4 then .oval
   else .irregular⟩

/-! Pocket/void detection (detect_pockets, analyze-stl.py lines 126-170). -/

/-- Python int() conversion of a rational: truncation toward zero. -/
def pyInt (q : ℚ) : ℤ := if 0 ≤ q then ⌊q⌋ else -⌊-q⌋

/-- Grid cell of a shifted 2-D point: int(x / grid_size), int(y / grid_size). -/
def cellOf (gridSize : ℚ) (p : ℚ × ℚ) : ℤ × ℤ :=
  (pyInt (p.1 / gridSize), pyInt (p.2 / gridSize))

/-- Hit count of a cell in the occupancy dict: the dict maps each key to
the number of points quantized to it, so the count of the key in the list
of quantized cells; a key absent from the dict has count 0. -/
def gridCount (cells : List (ℤ × ℤ)) (c : ℤ × ℤ) : ℕ := cells.count c

/-- The nine (dx, dy) pairs scanned by the nested dx/dy comprehension at
lines 151-153, in loop order (dx outer over [-1, 0, 1], dy inner). -/
def offsets9 : List (ℤ × ℤ) :=
  [(-1, -1), (-1, 0), (-1, 1), (0, -1), (0, 0), (0, 1), (1, -1), (1, 0), (1, 1)]

/-- The eight offsets of the spec's "8 immediate neighbors": offsets9
without (0, 0). -/
def offsets8 : List (ℤ × ℤ) :=
  [(-1, -1), (-1, 0), (-1, 1), (0, -1), (0, 1), (1, -1), (1, 0), (1, 1)]

/-- The neighbor tally of lines 151-153: how many of the nine offset cells
are present in the dict with a count of at least 3. -/
def neighborTotal9 (cells : List (ℤ × ℤ)) (c : ℤ × ℤ) : ℕ :=
  offsets9.countP (fun d =>
    decide (0 < gridCount cells (c.1 + d.1, c.2 + d.2)) &&
    decide (3 ≤ gridCount cells (c.1 + d.1, c.2 + d.2)))

/-- Neighbor tally over the eight proper neighbors, hit count at least 3,
an absent cell counting as 0 (the spec's formulation). -/
def neighborTotal8 (cells : List (ℤ × ℤ)) (c : ℤ × ℤ) : ℕ :=
  offsets8.countP (fun d => decide (3 ≤ gridCount cells (c.1 + d.1, c.2 + d.2)))

/-- The candidate test exactly as lines 150-154 nest it: the cell is
absent from the dict or its count is below 3, and the nine-offset
neighbor tally reaches 4. -/
def codePocketCell (cells : List (ℤ × ℤ)) (c : ℤ × ℤ) : Bool :=
  (decide (gridCount cells c = 0) || decide (gridCount cells c < 3)) &&
  decide (4 ≤ neighborTotal9 cells c)

/-- The candidate test in the spec's words: own hit count below 3
(unoccupied counting as 0), and at least 4 of the 8 immediate neighbors
with hit count at least 3. -/
def specPocketCell (cells : List (ℤ × ℤ)) (c : ℤ × ℤ) : Bool :=
  decide (gridCount cells c < 3) && decide (4 ≤ neighborTotal8 cells c)

/-- The closed integer interval [a, b] as the Python range(a, b + 1). -/
def rangeClosed (a b : ℤ) : List ℤ :=
  (List.range (b + 1 - a).toNat).map (fun i => a + i)

/-- The empty_interior list of lines 147-157: scan the rectangle spanned
by the occupied cells in loop order, keep cells passing the candidate
test, and record each cell's center coordinates. The empty-cells guard at
line 141 (if not all_gx) corresponds to the empty match arm. -/
def emptyInterior (cells : List (ℤ × ℤ)) (gridSize : ℚ) : List (ℚ × ℚ) :=
  match cells with
  | [] => []
  | c0 :: rest =>
    let gxs := (c0 :: rest).map Prod.fst
    let gys := (c0 :: rest).map Prod.snd
    (rangeClosed (pymin gxs) (pymax gxs)).flatMap (fun gx =>
      (rangeClosed (pymin gys) (pymax gys)).filterMap (fun gy =>
        if codePocketCell (c0 :: rest) (gx, gy) then
          some ((gx : ℚ) * gridSize + gridSize / 2, (gy : ℚ) * gridSize + gridSize / 2)
        else none))

/-- Same scan with the candidate test stated in the spec's words. -/
def specEmptyInterior (cells : List (ℤ × ℤ)) (gridSize : ℚ) : List (ℚ × ℚ) :=
  match cells with
  | [] => []
  | c0 :: rest =>
    let gxs := (c0 :: rest).map Prod.fst
    let gys := (c0 :: rest).map Prod.snd
    (rangeClosed (pymin gxs) (pymax gxs)).flatMap (fun gx =>
      (rangeClosed (pymin gys) (pymax gys)).filterMap (fun gy =>
        if specPocketCell (c0 :: rest) (gx, gy) then
          some ((gx : ℚ) * gridSize + gridSize / 2, (gy : ℚ) * gridSize + gridSize / 2)
        else none))

/-- Pocket report record of detect_pockets. -/
structure PocketRes where
  count : ℕ
  xRange : ℚ × ℚ
  yRange : ℚ × ℚ
  width : ℚ
  height : ℚ
deriving DecidableEq

/-- detect_pockets(all_verts, min_x, min_y, z_target, tol, grid_size):
slab selection with the coordinates shifted by the mesh minima, the
under-10 guard, then the empty-interior scan; an empty cells list and an
empty empty_interior list both yield None, as at lines 141 and 159. -/
def detectPockets (allVerts : List Point3) (minX minY zTarget tol gridSize : ℚ) :
    Option PocketRes :=
  let verts2d := (allVerts.filter (fun v => |v.z - zTarget| < tol)).map
    (fun v => (v.x - minX, v.y - minY))
  if verts2d.length < 10 then none
  else
    let empty := emptyInterior (verts2d.map (cellOf gridSize)) gridSize
    if empty.isEmpty then none
    else
      let ex := empty.map Prod.fst
      let ey := empty.map Prod.snd
      some ⟨empty.length, (pymin ex, pymax ex), (pymin ey, pymax ey),
            pymax ex - pymin ex, pymax ey - pymin ey⟩

/-! ASCII cross-section rendering (ascii_cross_section at lines 78-106 and
its invocation loop at lines 309-324). The rendered rows are modelled as
(y-coordinate, occupancy flags); string formatting and the label line are
presentation only. -/

/-- Adaptive tolerance of the ASCII rendering loop: max(0.25, 3% of the
total height range). -/
def asciiTol (zRange : ℚ) : ℚ := max (1/4) (zRange * (3/100))

/-- The verts_2d selection of the ASCII loop at lines 316-317. -/
def asciiSlab (allVerts : List Point3) (zTarget zRange : ℚ) : List (ℚ × ℚ) :=
  (allVerts.filter (fun v => |v.z - zTarget| < asciiTol zRange)).map (fun v => (v.x, v.y))

/-- ascii_cross_section: build a rows-by-cols grid over the point set,
mark the cell of every point that lands in bounds (multiple points
collapse to one mark), and emit rows from highest to lowest, keeping only
rows with at least one mark, each paired with its y coordinate. -/
def asciiCrossSection (verts2d : List (ℚ × ℚ)) (width height gridRes : ℚ) :
    List (ℚ × List Bool) :=
  match verts2d with
  | [] => []
  | v0 :: vs =>
    let pts := v0 :: vs
    let minX := pymin (pts.map Prod.fst)
    let minY := pymin (pts.map Prod.snd)
    let cols := (pyInt (width / gridRes) + 2).toNat
    let rows := (pyInt (height / gridRes) + 2).toNat
    let occupied : ℕ → ℕ → Bool := fun r c =>
      pts.any (fun p =>
        decide (pyInt ((p.2 - minY) / gridRes) = (r : ℤ)) &&
        decide (pyInt ((p.1 - minX) / gridRes) = (c : ℤ)))
    (List.range rows).reverse.filterMap (fun r =>
      let row := (List.range cols).map (fun c => occupied r c)
      if row.any id then some (minY + (r : ℚ) * gridRes, row) else none)

/-- One iteration of the ASCII rendering loop at lines 314-323: skip the
level (emit nothing) when fewer than 10 vertices are in the slab,
otherwise render with cell size 2. -/
def asciiBlock (allVerts : List Point3) (zTarget zRange w h : ℚ) :
    Option (List (ℚ × List Bool)) :=
  if (asciiSlab allVerts zTarget zRange).length < 10 then none
  else some (asciiCrossSection (asciiSlab allVerts zTarget zRange) w h 2)

/-! Concrete inputs used by boundary checks and witnesses. -/

/-- Nine vertices in the z = 0 slab. -/
def ninePoints : List Point3 := (List.range 9).map (fun i => ⟨(i : ℚ), 0, 0⟩)

/-- Ten vertices in the z = 0 slab. -/
def tenPoints : List Point3 := (List.range 10).map (fun i => ⟨(i : ℚ), 0, 0⟩)

/-! Claim theorems. -/

/-- C1: the spec demands exit code 1 when an existing file parses to zero
triangles; the code prints the empty-mesh diagnostic but analyze() returns
normally and the process exits 0. This theorem evaluates the run at a
concrete failing input: an 84-byte binary file (80-byte header, zero
triangle count) that exists and parses to an empty mesh; the diagnostic is
printed, yet the exit code is 0, not 1. -/
theorem c1_empty_mesh_exits_zero :
    readBinarySTL (List.replicate 80 0 ++ [0, 0, 0, 0]) = .ok [] ∧
    isAsciiStl (List.replicate 80 0 ++ [0, 0, 0, 0]) = false ∧
    mainOutcome true [] = .emptyMeshError ∧
    mainExitCode true [] = 0 :=
  ⟨rfl, rfl, rfl, rfl⟩

/-- C9: a file classified as binary whose total length is below 84 bytes
(here 82 zero bytes) makes read_binary_stl fail while unpacking the
4-byte triangle count (modelled as the error outcome of the uncaught
struct.error), rather than returning a partial mesh. -/
theorem c9_short_binary_count_raises :
    readBinarySTL (List.replicate 82 0) = .error () ∧
    isAsciiStl (List.replicate 82 0) = false ∧
    (List.replicate 82 0).length < 84 :=
  ⟨rfl, rfl, by decide⟩

/-- C5: a triangle's classification is a function of normal.z alone, each
class characterized by its threshold condition (z > 0.9 top, z < -0.9
bottom, |z| < 0.1 vertical, angled otherwise), and for every mesh the four
class counters partition the triangle count. -/
theorem c5_normal_class_partition :
    (∀ nz : ℚ, classifyNormal nz = .top ↔ 9/10 < nz) ∧
    (∀ nz : ℚ, classifyNormal nz = .bottom ↔ nz < -(9/10)) ∧
    (∀ nz : ℚ, classifyNormal nz = .vertical ↔ |nz| < 1/10) ∧
    (∀ nz : ℚ, classifyNormal nz = .angled ↔
      ¬(9/10 < nz) ∧ ¬(nz < -(9/10)) ∧ ¬(|nz| < 1/10)) ∧
    (∀ tris : List Triangle,
      (normalCounts tris).1 + (normalCounts tris).2.1 + (normalCounts tris).2.2.1 +
        (normalCounts tris).2.2.2 = tris.length) := by
  refine ⟨?_, ?_, ?_, ?_, ?_⟩
  · intro nz
    unfold classifyNormal
    split_ifs with h1 h2 h3 <;> simp_all
  · intro nz
    unfold classifyNormal
    split_ifs with h1 h2 h3 <;> simp_all <;>
      linarith [le_abs_self nz, neg_abs_le nz]
  · intro nz
    unfold classifyNormal
    split_ifs with h1 h2 h3 <;> simp_all <;>
      linarith [le_abs_self nz, neg_abs_le nz]
  · intro nz
    unfold classifyNormal
    split_ifs with h1 h2 h3 <;> simp_all
  · intro tris
    induction tris with
    | nil => rfl
    | cons t ts ih =>
      rcases h : classifyNormal t.normal.z <;>
        (simp [normalCounts, h]; omega)

/-- Any byte surviving the lstrip was not dropped, and dropped bytes are
whitespace, so a null byte absent from the stripped prefix is absent from
the whole prefix. -/
lemma not_mem_of_not_mem_bstrip (l : List ℕ) (h0 : 0 ∉ bstrip l) : 0 ∉ l := by
  induction l with
  | nil => simp
  | cons b t ih =>
    by_cases hb : b ∈ wsBytes
    · intro hmem
      have hstrip : bstrip (b :: t) = bstrip t := by
        simp [bstrip, List.dropWhile, hb]
      rcases List.mem_cons.mp hmem with hb0 | ht
      · rw [← hb0] at hb
        simp [wsBytes] at hb
      · exact ih (hstrip ▸ h0) ht
    · intro hmem
      have hstrip : bstrip (b :: t) = b :: t := by
        simp [bstrip, List.dropWhile, hb]
      exact h0 (by rw [hstrip]; exact hmem)

/-- C3: format detection looks at the first 80 bytes only and reports text
exactly when the whitespace-stripped prefix starts with b"solid" and holds
no null byte; consequently a text-classified header has no null anywhere
in its first 80 bytes, and any header of b"solid" followed by a null byte
is detected and parsed as binary. -/
theorem c3_format_detection :
    (∀ file : List ℕ, isAsciiStl file = true ↔
      solidMarker.isPrefixOf (bstrip (file.take 80)) ∧ 0 ∉ bstrip (file.take 80)) ∧
    (∀ file : List ℕ, isAsciiStl file = true → 0 ∉ file.take 80) ∧
    (∀ rest : List ℕ, isAsciiStl (solidMarker ++ 0 :: rest) = false ∧
      detectFormat (solidMarker ++ 0 :: rest) = .binary) := by
  have hchar : ∀ file : List ℕ, isAsciiStl file = true ↔
      solidMarker.isPrefixOf (bstrip (file.take 80)) ∧ 0 ∉ bstrip (file.take 80) := by
    intro file
    simp [isAsciiStl, List.contains, List.elem_eq_mem]
  refine ⟨hchar, ?_, ?_⟩
  · intro file h
    exact not_mem_of_not_mem_bstrip (file.take 80) ((hchar file).mp h).2
  · intro rest
    have hfalse : isAsciiStl (solidMarker ++ 0 :: rest) = false := by
      have htake : (solidMarker ++ 0 :: rest).take 80 =
          solidMarker ++ (0 :: rest).take 75 := by
        rw [List.take_append_eq_append_take]
        simp [solidMarker]
      have hstrip : bstrip ((solidMarker ++ 0 :: rest).take 80) =
          solidMarker ++ (0 :: rest).take 75 := by
        rw [htake]
        simp [bstrip, solidMarker, wsBytes, List.dropWhile]
      simp only [isAsciiStl, hstrip]
      simp [List.contains, List.elem_eq_mem, solidMarker]
    exact ⟨hfalse, by simp [detectFormat, hfalse]⟩

/-- Witness for C3: the header b"solid " is classified text and indeed has
no null byte among its first 80 bytes. -/
theorem c3_format_detection_witness :
    isAsciiStl (solidMarker ++ [32]) = true ∧ 0 ∉ (solidMarker ++ [32]).take 80 :=
  ⟨by decide, c3_format_detection.2.1 (solidMarker ++ [32]) (by decide)⟩

/-- C4: the reconstruction recommendation is a pure function of triangle
count, flat/vertical percentage and curved percentage, evaluated in
precedence order (small and flat gives manual parametric; else large or
curved gives polyhedron, with a decimation suggestion max(0.1,
20000/count) above 50000 triangles; else sliced cross-section), and the
three quoted instances evaluate as stated. -/
theorem c4_recommendation_cases :
    (∀ (n : ℕ) (f c : ℚ), n < 500 → 80 < f →
      recommend n f c = (.manualParametric, none)) ∧
    (∀ (n : ℕ) (f c : ℚ), ¬(n < 500 ∧ 80 < f) → (1000 < n ∨ 30 < c) →
      recommend n f c =
        (.polyhedron,
          if 50000 < n then some (max (1/10) (20000 / (n : ℚ))) else none)) ∧
    (∀ (n : ℕ) (f c : ℚ), ¬(n < 500 ∧ 80 < f) → ¬(1000 < n ∨ 30 < c) →
      recommend n f c = (.slicedCrossSection, none)) ∧
    recommend 300 60 20 = (.slicedCrossSection, none) ∧
    recommend 1200 10 5 = (.polyhedron, none) ∧
    recommend 400 85 2 = (.manualParametric, none) := by
  refine ⟨?_, ?_, ?_, by decide, by decide, by decide⟩
  · intro n f c h1 h2
    simp only [recommend]
    rw [if_pos ⟨h1, h2⟩]
  · intro n f c h1 h2
    simp only [recommend]
    rw [if_neg h1, if_pos h2]
  · intro n f c h1 h2
    simp only [recommend]
    rw [if_neg h1, if_neg h2]

/-- Witness for C4 at the concrete triple (400, 85, 2). -/
theorem c4_recommendation_cases_witness :
    400 < 500 ∧ (80 : ℚ) < 85 ∧ recommend 400 85 2 = (.manualParametric, none) :=
  ⟨by decide, by decide, c4_recommendation_cases.1 400 85 2 (by decide) (by decide)⟩

/-- C6: analyze_slice with the default tolerance 0.25 selects exactly the
vertices within the open tolerance window around the target height, and
returns the no-result outcome precisely when fewer than 10 of them
qualify; a 9-point slab yields no result, a 10-point slab yields one. -/
theorem c6_slice_threshold :
    (∀ (allVerts : List Point3) (targetZ : ℚ) (p : ℚ × ℚ),
      p ∈ slabVerts allVerts targetZ (1/4) ↔
        ∃ v, v ∈ allVerts ∧ |v.z - targetZ| < 1/4 ∧ (v.x, v.y) = p) ∧
    (∀ (allVerts : List Point3) (targetZ : ℚ),
      analyzeSlice allVerts targetZ (1/4) = none ↔
        (slabVerts allVerts targetZ (1/4)).length < 10) ∧
    analyzeSlice ninePoints 0 (1/4) = none ∧
    (analyzeSlice tenPoints 0 (1/4)).isSome = true := by
  refine ⟨?_, ?_, ?_, ?_⟩
  · intro allVerts targetZ p
    simp only [slabVerts, List.mem_map, List.mem_filter, decide_eq_true_eq]
    constructor
    · rintro ⟨v, ⟨hv, hz⟩, he⟩
      exact ⟨v, hv, hz, he⟩
    · rintro ⟨v, hv, hz, he⟩
      exact ⟨v, ⟨hv, hz⟩, he⟩
  · intro allVerts targetZ
    by_cases hc : (slabVerts allVerts targetZ (1/4)).length < 10 <;>
      simp [analyzeSlice, hc]
  · have hc : (slabVerts ninePoints 0 (1/4)).length < 10 := by
      norm_num [slabVerts, ninePoints, List.filter, List.range, List.range.loop]
    rw [analyzeSlice, if_pos hc]
  · have hc : ¬(slabVerts tenPoints 0 (1/4)).length < 10 := by
      norm_num [slabVerts, tenPoints, List.filter, List.range, List.range.loop]
    rw [analyzeSlice, if_neg hc]
    rfl

/-- C10: one iteration of the ASCII cross-section loop emits nothing
exactly when fewer than 10 vertices lie within the adaptive tolerance
max(0.25, 3% of the height range) of the target height; with 10 or more
the renderer is invoked. -/
theorem c10_ascii_block_gate :
    ∀ (allVerts : List Point3) (zTarget zRange w h : ℚ),
      asciiBlock allVerts zTarget zRange w h = none ↔
        (asciiSlab allVerts zTarget zRange).length < 10 := by
  intro allVerts zTarget zRange w h
  by_cases hc : (asciiSlab allVerts zTarget zRange).length < 10 <;>
    simp [asciiBlock, hc]

/-- For a positive threshold test the presence conjunct is redundant:
a count of at least 3 is in particular positive. -/
lemma presence_and_three_le (n : ℕ) :
    (decide (0 < n) && decide (3 ≤ n)) = decide (3 ≤ n) := by
  by_cases h : 3 ≤ n
  · simp [h]
    omega
  · simp [h]

/-- The nested candidate test of detect_pockets coincides with the spec's
formulation: the nine-offset tally counts the cell itself only when its
count is at least 3, which the sparseness conjunct excludes. -/
lemma pocket_cell_eq (cells : List (ℤ × ℤ)) (c : ℤ × ℤ) :
    codePocketCell cells c = specPocketCell cells c := by
  by_cases h3 : 3 ≤ gridCount cells c
  · have h0 : ¬(gridCount cells c = 0) := by omega
    have h3' : ¬(gridCount cells c < 3) := by omega
    simp [codePocketCell, specPocketCell, h0, h3']
  · have hn : neighborTotal9 cells c = neighborTotal8 cells c := by
      rcases c with ⟨cx, cy⟩
      have hno : ¬(3 ≤ gridCount cells (cx, cy)) := h3
      simp only [neighborTotal9, neighborTotal8, offsets9, offsets8,
        List.countP_cons, List.countP_nil, presence_and_three_le, add_zero]
      simp [hno]
    have h3' : gridCount cells c < 3 := by omega
    simp [codePocketCell, specPocketCell, hn, h3']

/-- C2: inside the rectangle spanned by the occupied cells, detect_pockets
classifies a cell as a candidate empty-interior cell exactly when its own
hit count is below 3 (an unoccupied cell counting 0) and at least 4 of its
8 immediate neighbors have a hit count of at least 3; consequently the
scanned empty-interior list equals the one produced by the spec's
formulation of the test. -/
theorem c2_pocket_cell_rule :
    (∀ (cells : List (ℤ × ℤ)) (c : ℤ × ℤ),
      codePocketCell cells c = specPocketCell cells c) ∧
    (∀ (cells : List (ℤ × ℤ)) (gridSize : ℚ),
      emptyInterior cells gridSize = specEmptyInterior cells gridSize) := by
  refine ⟨pocket_cell_eq, ?_⟩
  intro cells gridSize
  cases cells with
  | nil => rfl
  | cons c0 rest =>
    have hfun : codePocketCell (c0 :: rest) = specPocketCell (c0 :: rest) :=
      funext (fun c => pocket_cell_eq (c0 :: rest) c)
    simp only [emptyInterior, specEmptyInterior, hfun]

/-- The record loop consumes the well-formed 50-byte records at the front
of the stream and stops at a short tail, returning what it parsed so far,
provided the declared count exceeds the number of complete records. -/
lemma parseRecords_complete_then_short (recs : List (List ℕ)) :
    ∀ (n : ℕ) (tail : List ℕ), (∀ r ∈ recs, r.length = 50) →
      recs.length < n → tail.length < 50 →
      parseRecords n (recs.flatten ++ tail) = recs.map decodeRecord := by
  induction recs with
  | nil =>
    intro n tail _ hn ht
    cases n with
    | zero => omega
    | succ m =>
      simp only [List.flatten_nil, List.nil_append, List.map_nil, parseRecords]
      rw [if_pos ht]
  | cons r rs ih =>
    intro n tail hr hn ht
    cases n with
    | zero => omega
    | succ m =>
      have hr50 : r.length = 50 := hr r (List.mem_cons_self r rs)
      have hlen : ¬((r :: rs).flatten ++ tail).length < 50 := by
        simp [List.flatten_cons, List.length_append, hr50]
      simp only [parseRecords, if_neg hlen]
      have htake : ((r :: rs).flatten ++ tail).take 50 = r := by
        rw [List.flatten_cons, List.append_assoc]
        exact List.take_left' hr50
      have hdrop : ((r :: rs).flatten ++ tail).drop 50 = rs.flatten ++ tail := by
        rw [List.flatten_cons, List.append_assoc]
        exact List.drop_left' hr50
      rw [htake, hdrop, List.map_cons]
      have hrs : ∀ q ∈ rs, q.length = 50 := fun q hq => hr q (List.mem_cons_of_mem r hq)
      rw [ih m tail hrs (by simpa using Nat.lt_of_succ_lt_succ hn) ht]

/-- C8: for a binary STL input made of a header, a 4-byte count, a run of
complete 50-byte triangle records and a short tail (fewer than 50 bytes
left when the next record is due, the declared count still asking for
more), the parser stops without error and returns exactly the triangles
parsed so far, in order. -/
theorem c8_partial_binary_read :
    ∀ (header cnt tail : List ℕ) (recs : List (List ℕ)),
      header.length = 80 → cnt.length = 4 → (∀ r ∈ recs, r.length = 50) →
      recs.length < le32 cnt → tail.length < 50 →
      readBinarySTL (header ++ (cnt ++ (recs.flatten ++ tail))) =
        .ok (recs.map decodeRecord) := by
  intro header cnt tail recs hh hc hr hn ht
  unfold readBinarySTL
  rw [List.drop_left' hh]
  have hlen : ¬(cnt ++ (recs.flatten ++ tail)).length < 4 := by
    simp [List.length_append, hc]
  rw [if_neg hlen, List.take_left' hc, List.drop_left' hc,
    parseRecords_complete_then_short recs (le32 cnt) tail hr hn ht]

/-- One arbitrary complete 50-byte record used by the C8 witness. -/
def sampleRecord : List ℕ := List.range 50

/-- Witness for C8: a header of 80 zero bytes, a declared count of 2, one
complete record and a 3-byte tail; the parser returns exactly the one
parsed triangle. -/
theorem c8_partial_binary_read_witness :
    (List.replicate 80 0).length = 80 ∧ ([2, 0, 0, 0] : List ℕ).length = 4 ∧
    (∀ r ∈ [sampleRecord], r.length = 50) ∧
    [sampleRecord].length < le32 [2, 0, 0, 0] ∧ ([9, 9, 9] : List ℕ).length < 50 ∧
    readBinarySTL (List.replicate 80 0 ++ ([2, 0, 0, 0] ++ ([sampleRecord].flatten ++ [9, 9, 9]))) =
      .ok ([sampleRecord].map decodeRecord) :=
  ⟨by decide, by decide, by decide, by decide, by decide,
    c8_partial_binary_read (List.replicate 80 0) [2, 0, 0, 0] [9, 9, 9] [sampleRecord]
      (by decide) (by decide) (by decide) (by decide) (by decide)⟩

/-- The two guards agree on nonnegative mean radii: testing mean > 0 and
dividing, versus returning 0 at mean = 0 and dividing otherwise. -/
lemma if_pos_div_eq_if_ne (s a : ℝ) (ha : 0 ≤ a) :
    (if a > 0 then s / a else (0 : ℝ)) = (if a = 0 then 0 else s / a) := by
  rcases eq_or_lt_of_le ha with h | h
  · rw [if_neg (by rw [← h]; exact lt_irrefl 0), if_pos h.symm]
  · rw [if_pos h, if_neg (ne_of_gt h)]

/-- The analyze_slice body computes exactly the record the spec describes:
the only textual differences are the divisor (len(dists) versus the equal
point count) and the variation guard (avg_r > 0 versus meanRadius = 0),
and the mean of the nonnegative distances is nonnegative, collapsing the
two guards. -/
lemma sliceInfoOf_eq_spec (verts : List (ℚ × ℚ)) :
    sliceInfoOf verts = specSliceResult verts := by
  unfold sliceInfoOf specSliceResult
  simp only [List.length_map]
  have hnn : (0 : ℝ) ≤ (verts.map (fun p =>
      Real.sqrt (((p.1 : ℝ) -
          ((pymin (verts.map Prod.fst) + pymax (verts.map Prod.fst)) / 2 : ℚ)) ^ 2 +
        ((p.2 : ℝ) -
          ((pymin (verts.map Prod.snd) + pymax (verts.map Prod.snd)) / 2 : ℚ)) ^ 2))).sum /
      ((verts.length : ℝ)) := by
    apply div_nonneg _ (Nat.cast_nonneg _)
    apply List.sum_nonneg
    intro x hx
    obtain ⟨p, _, rfl⟩ := List.mem_map.mp hx
    exact Real.sqrt_nonneg _
  rw [if_pos_div_eq_if_ne _ _ hnn]

/-- C7: on every slab with at least 10 qualifying points, analyze_slice
returns the record whose center is the midpoint of the 2-D bounding box of
the selected pairs, whose avgRadius is the arithmetic mean of the
Euclidean distances of every selected point to that center, whose
variation is the population standard deviation of those distances divided
by the mean (0 when the mean is 0), and whose label is circular below 0.1,
oval below 0.25, irregular otherwise. -/
theorem c7_slice_statistics :
    ∀ (allVerts : List Point3) (targetZ : ℚ),
      10 ≤ (slabVerts allVerts targetZ (1/4)).length →
      analyzeSlice allVerts targetZ (1/4) =
        some (specSliceResult (slabVerts allVerts targetZ (1/4))) := by
  intro allVerts targetZ h
  rw [analyzeSlice, if_neg (by omega), sliceInfoOf_eq_spec]

/-- Witness for C7 on a concrete 10-point slab at height 0. -/
theorem c7_slice_statistics_witness :
    10 ≤ (slabVerts tenPoints 0 (1/4)).length ∧
    analyzeSlice tenPoints 0 (1/4) =
      some (specSliceResult (slabVerts tenPoints 0 (1/4))) :=
  ⟨by norm_num [slabVerts, tenPoints, List.filter, List.range, List.range.loop],
   c7_slice_statistics tenPoints 0
     (by norm_num [slabVerts, tenPoints, List.filter, List.range, List.range.loop])⟩

end StlAnalyze
